import Mathlib

/-!
Verification development for the NPC dialog mapper (TB2dic repository).

The definitions below are a shallow embedding of the data-reconciliation and
tree-rendering core of `src/npc_dialog_mapper_gui_fixed.pyw` (the "fixed"
variant) and, where a claim also concerns it, of the legacy variant
`src/npc_dialog_mapper_gui.pyw`.  Python dicts keyed by integer ids are
modelled as insertion-ordered association lists (Python 3.7+ dicts preserve
insertion order); Python `None` becomes `Option.none`; integer ids, which are
non-negative in the data files, become `Nat`.
-/

/-! ## Data model (the dataclasses of npc_dialog_mapper_gui_fixed.pyw) -/

/-- Dataclass `NPCReply`. -/
structure NPCReply where
  reply_id : Nat
  text_fr : String
  text_en : Option String
  text_es : Option String
  text_pt : Option String
  context : Option String
  parent_message_id : Nat
  leads_to_message_id : Option Nat
deriving DecidableEq, Repr

/-- Dataclass `NPCMessage`; `replies` is filled by `_build_relationships`. -/
structure NPCMessage where
  message_id : Nat
  text_fr : String
  text_en : Option String
  text_es : Option String
  text_pt : Option String
  context : Option String
  replies : List NPCReply
deriving DecidableEq, Repr

/-- Dataclass `NPCDialog`. -/
structure NPCDialog where
  dialog_id : Nat
  npc_id : Nat
  message_id : Nat
  check_order : Nat
deriving DecidableEq, Repr

/-- Dataclass `NPCMetadata` (gender codes: 0 = MALE, 1 = FEMALE, 2 = UNDEFINED). -/
structure NPCMetadata where
  index_id : Nat
  gender : Nat
  look : String
  img_url : String
  metadata_id : String
  name_en : String
  name_pt : String
  name_es : String
  name_fr : String
  name_de : String
deriving DecidableEq, Repr

/-- Dataclass `NPC`; `dialogs`, `genders`, `img_urls` start empty and are
filled by `_build_relationships` / `_match_metadata_with_npcs`. -/
structure NPC where
  npc_id : Nat
  name_fr : String
  name_en : Option String
  name_es : Option String
  name_pt : Option String
  context : Option String
  dialogs : List NPCDialog
  genders : List Nat
  img_urls : List String
deriving DecidableEq, Repr

/-! ## Small helpers used throughout -/

/-- Python truthiness of an optional integer (`if reply.leads_to_message_id:`):
`None` and `0` are falsy. -/
def optNatTruthy : Option Nat → Bool
  | none => false
  | some n => n != 0

/-- Left-to-right non-overlapping replacement (Python `str.replace`),
structurally recursive on an explicit fuel that `charsReplace` instantiates
with the text length (each step consumes at least one character). -/
def charsReplaceFuel : Nat → List Char → List Char → List Char → List Char
  | 0, s, _, _ => s
  | _, [], _, _ => []
  | fuel + 1, c :: rest, pat, rep =>
    if pat.isPrefixOf (c :: rest) && !pat.isEmpty then
      rep ++ charsReplaceFuel fuel ((c :: rest).drop pat.length) pat rep
    else c :: charsReplaceFuel fuel rest pat rep

/-- Python `s.replace(pat, rep)` on character lists (the patterns used by the
program are the non-empty constants `"\n"` and `"\r"`). -/
def charsReplace (s pat rep : List Char) : List Char :=
  charsReplaceFuel s.length s pat rep

/-- Python `str.strip()`: drop leading and trailing whitespace. -/
def trimChars (l : List Char) : List Char :=
  ((l.dropWhile Char.isWhitespace).reverse.dropWhile Char.isWhitespace).reverse

/-- Python `str.split(sep)` for a one-character separator. -/
def splitOnChar (sep : Char) : List Char → List (List Char)
  | [] => [[]]
  | c :: rest =>
    if c = sep then [] :: splitOnChar sep rest
    else
      match splitOnChar sep rest with
      | [] => [[c]]
      | s :: ss => (c :: s) :: ss

/-- Parse a plain digit string to a number (the shape of the numeric ids
appearing in the unit identifiers). -/
def charsToNat? (l : List Char) : Option Nat :=
  if !l.isEmpty && l.all Char.isDigit then
    some (l.foldl (fun n c => n * 10 + (c.toNat - 48)) 0)
  else none

/-- `_format_text_with_null_check`: `None` or the empty string render as the
NULL marker, otherwise newlines become `<br>` and carriage returns vanish. -/
def formatTextWithNullCheck : Option String → String
  | none => "<span class=\"null-value\">NULL ⚠️</span>"
  | some t =>
      if t = "" then "<span class=\"null-value\">NULL ⚠️</span>"
      else String.mk (charsReplace (charsReplace t.data "\n".data "<br>".data) "\r".data "".data)

/-! ## The dialog tree renderer (`_generate_dialog_tree`, fixed variant)

The Python function receives the `NPCMessage` object it is to render, always
fetched as `self.messages[id]` by its callers (which guard membership); the
embedding receives the id and performs the lookup itself, returning `""` on
the (unreachable at call sites) failed lookup.  The Python `visited` set is
mutated with `add` before the loop over replies and every recursive call gets
`visited.copy()`, so functionally each recursive call receives
`visited ∪ {message_id}`; the trailing `visited.remove` only affects the
call's own copy and is a functional no-op.  The recursion is modelled with an
explicit fuel argument bounded by the number of not-yet-visited messages; the
fuel-stability theorem below shows the bound is sufficient, i.e. the
recursion terminates on every input.  The unused local variables
`indent_style`, `reply_indent_style`, `depth_indicator` and
`reply_depth_indicator` of the source never reach the output and are omitted. -/

/-- `max_level = 15`, the visual indentation cap of `_generate_dialog_tree`. -/
def maxLevel : Nat := 15

/-- The terminal reference marker emitted for a revisited message. -/
def messageRefHtml (mid : Nat) : String :=
  "<div class=\"message-ref\">↺ Reference to Message ID: " ++ toString mid ++ "</div>"

/-- The message block of `_generate_dialog_tree` up to (and excluding) the
replies container: the first f-string of the function. -/
def messageOpenHtml (m : NPCMessage) (level visual_level : Nat) : String :=
  "\n        <div class=\"message collapsible depth-" ++ toString visual_level ++
  "\" data-message-id=\"" ++ toString m.message_id ++
  "\" data-depth=\"" ++ toString level ++ "\">\n" ++
  "            <div class=\"message-header clickable-header\">\n" ++
  "                " ++
  (if level > maxLevel then
    "<span class=\"depth-badge\">Depth: " ++ toString level ++ "</span>"
   else "") ++ "\n" ++
  "                <strong>💬 Message ID: " ++ toString m.message_id ++ "</strong>\n" ++
  "                <span class=\"collapse-indicator\">−</span>\n" ++
  "            </div>\n" ++
  "            <div class=\"message-content collapsible-content\">\n" ++
  "                <div class=\"lang-row\">\n" ++
  "                    <span class=\"lang-label\">FR:</span> " ++
    formatTextWithNullCheck (some m.text_fr) ++ "\n" ++
  "                </div>\n" ++
  "                <div class=\"lang-row\">\n" ++
  "                    <span class=\"lang-label\">EN:</span> " ++
    formatTextWithNullCheck m.text_en ++ "\n" ++
  "                </div>\n" ++
  "                <div class=\"lang-row\">\n" ++
  "                    <span class=\"lang-label\">ES:</span> " ++
    formatTextWithNullCheck m.text_es ++ "\n" ++
  "                </div>\n" ++
  "                <div class=\"lang-row\">\n" ++
  "                    <span class=\"lang-label\">PT:</span> " ++
    formatTextWithNullCheck m.text_pt ++ "\n" ++
  "                </div>\n" ++
  "            </div>\n        "

/-- The reply block of `_generate_dialog_tree` up to (and excluding) the
nested continuation message: the inner f-string of the reply loop. -/
def replyOpenHtml (reply : NPCReply) (level reply_visual_level : Nat) : String :=
  "\n                <div class=\"reply collapsible-nested depth-" ++
    toString reply_visual_level ++
  "\" data-reply-id=\"" ++ toString reply.reply_id ++
  "\" data-depth=\"" ++ toString (level + 1) ++ "\">\n" ++
  "                    <div class=\"reply-header\">\n" ++
  "                        " ++
  (if level + 1 > maxLevel then
    "<span class=\"depth-badge\">Depth: " ++ toString (level + 1) ++ "</span>"
   else "") ++ "\n" ++
  "                        <strong>↪️ Reply ID: " ++ toString reply.reply_id ++ "</strong>\n" ++
  "                        " ++
  (if optNatTruthy reply.leads_to_message_id then
    " → Message ID: " ++ toString (reply.leads_to_message_id.getD 0)
   else "") ++ "\n" ++
  "                    </div>\n" ++
  "                    <div class=\"reply-content\">\n" ++
  "                        <div class=\"lang-row\">\n" ++
  "                            <span class=\"lang-label\">FR:</span> " ++
    formatTextWithNullCheck (some reply.text_fr) ++ "\n" ++
  "                        </div>\n" ++
  "                        <div class=\"lang-row\">\n" ++
  "                            <span class=\"lang-label\">EN:</span> " ++
    formatTextWithNullCheck reply.text_en ++ "\n" ++
  "                        </div>\n" ++
  "                        <div class=\"lang-row\">\n" ++
  "                            <span class=\"lang-label\">ES:</span> " ++
    formatTextWithNullCheck reply.text_es ++ "\n" ++
  "                        </div>\n" ++
  "                        <div class=\"lang-row\">\n" ++
  "                            <span class=\"lang-label\">PT:</span> " ++
    formatTextWithNullCheck reply.text_pt ++ "\n" ++
  "                        </div>\n" ++
  "                    </div>\n                "

/-- Number of loaded messages whose id is not yet on the current path:
the natural bound for the recursion depth of `_generate_dialog_tree`. -/
def unvisitedCount (msgs : List NPCMessage) (visited : List Nat) : Nat :=
  ((msgs.map (fun m => m.message_id)).filter (fun i => !(visited.contains i))).length

/-- The nested continuation of one reply: the recursion guard of
`_generate_dialog_tree` is
`if reply.leads_to_message_id and reply.leads_to_message_id in self.messages`
with Python truthiness, so a `leads_to_message_id` of `0` never recurses;
`render` is the recursive renderer applied to the continuation id. -/
def replyNestedHtml (msgs : List NPCMessage) (render : Nat → String) (reply : NPCReply) : String :=
  match reply.leads_to_message_id with
  | some nid =>
    if nid != 0 && (msgs.find? (fun m2 => m2.message_id == nid)).isSome then
      "<div class=\"nested-messages\">" ++ render nid ++ "</div>"
    else ""
  | none => ""

/-- One reply's complete block: the reply markup, its nested continuation
(if any), and the closing tag. -/
def replyBlockHtml (level : Nat) (reply : NPCReply) (nested : String) : String :=
  replyOpenHtml reply level (min (level + 1) maxLevel) ++ nested ++ "</div>"

/-- Fuel-indexed embedding of `_generate_dialog_tree` (fixed variant).
`visited` is the path-scoped set of message ids; each reply branch of the
loop receives the same path-extended set `mid :: visited` (the Python code
passes `visited.copy()` to each recursive call, so siblings never observe
each other's visits). -/
def generateDialogTreeFuel : Nat → List NPCMessage → Nat → Nat → List Nat → String
  | 0, _, _, _, _ => ""
  | fuel + 1, msgs, mid, level, visited =>
    match msgs.find? (fun m => m.message_id == mid) with
    | none => ""
    | some m =>
      if visited.contains mid then
        messageRefHtml mid
      else
        messageOpenHtml m level (min level maxLevel) ++
        (if m.replies.isEmpty then ""
         else
          "<div class=\"replies collapsible-nested\">" ++
          String.join (m.replies.map (fun reply =>
            replyBlockHtml level reply
              (replyNestedHtml msgs
                (fun nid => generateDialogTreeFuel fuel msgs nid (level + 2) (mid :: visited))
                reply))) ++
          "</div>") ++
        "</div>"

/-- `_generate_dialog_tree` proper: run the fuel-indexed recursion with the
sufficient fuel `unvisitedCount msgs visited + 1` (sufficiency is the
fuel-stability theorem below). -/
def generateDialogTree (msgs : List NPCMessage) (mid level : Nat) (visited : List Nat) : String :=
  generateDialogTreeFuel (unvisitedCount msgs visited + 1) msgs mid level visited

/-! ## Substring utilities (for stating facts about rendered HTML) -/

/-- Tail-recursive single scan for `countOccur`; the accumulator is matched
against `0` / `_ + 1` so that it is kept in evaluated form. -/
def countOccurAux (pat : List Char) : List Char → Nat → Nat
  | [], acc => acc + (if pat.isEmpty then 1 else 0)
  | c :: rest, 0 =>
    countOccurAux pat rest (if pat.isPrefixOf (c :: rest) then 1 else 0)
  | c :: rest, acc + 1 =>
    countOccurAux pat rest (acc + 1 + (if pat.isPrefixOf (c :: rest) then 1 else 0))

/-- Number of positions of `s` at which `pat` occurs as a contiguous block. -/
def countOccur (pat s : List Char) : Nat :=
  countOccurAux pat s 0

/-- Substring occurrence test, single scan over the text. -/
def containsSubChars (pat : List Char) : List Char → Bool
  | [] => pat.isEmpty
  | c :: rest => pat.isPrefixOf (c :: rest) || containsSubChars pat rest

/-- Boolean substring test (`pat` occurs somewhere inside `s`). -/
def containsSub (s pat : String) : Bool :=
  containsSubChars pat.data s.data

/-! ## The client search contract (`searchInText` in `_get_javascript`)

The generated page's `searchInText`/`searchInNPCNames`/`dialogTreeContainsMatch`
all apply the same per-text decision to a candidate text and the search term
(both already lowercased by the page: `searchInput.value.toLowerCase().trim()`
and `row.textContent.toLowerCase()`; the regexes additionally carry the `i`
flag, modelled by lowercasing both sides):

    if (exactMatch)            regex = \b + escape(pattern) + \b
    else if (useWildcards && pattern.includes('*'))
                               regex = wildcardToRegex(pattern)   -- * => [^\s]*
    else                       textContent.includes(pattern)

`highlightText` uses the identical branch order.  The `ignoreDiacritics`
transform is off for the claim under study and is not modelled. -/

/-- JavaScript regex word character (`\w` = ASCII letters, digits, underscore). -/
def jsWordChar (c : Char) : Bool := c.isAlphanum || c == '_'

/-- Character at position `i`, out-of-range positions count as non-word. -/
def isWordAt (t : List Char) (i : Nat) : Bool :=
  match (t.drop i).head? with
  | some c => jsWordChar c
  | none => false

/-- JavaScript `\b` zero-width assertion at position `i` of `t` (`0 ≤ i ≤ |t|`):
word-character-ness changes between the previous and the current position. -/
def boundaryAt (t : List Char) (i : Nat) : Bool :=
  (if i = 0 then false else isWordAt t (i - 1)) != isWordAt t i

/-- `new RegExp("\\b" + escape(pat) + "\\b").test(t)`: the escaped pattern is a
literal, so the regex matches iff `pat` occurs at some position with a word
boundary on each side. -/
def testWordBoundary (pat t : List Char) : Bool :=
  (List.range (t.length + 1)).any (fun i =>
    pat.isPrefixOf (t.drop i) && boundaryAt t i && boundaryAt t (i + pat.length))

/-- Matching of `wildcardToRegex`'s pattern — literal segments separated by
`[^\s]*` — against the text starting exactly at its head (consuming a prefix). -/
def wildMatchFrom : List (List Char) → List Char → Bool
  | [], _ => true
  | [s], t => s.isPrefixOf t
  | s :: s2 :: rest, t =>
    s.isPrefixOf t &&
    (let t2 := t.drop s.length
     (List.range (t2.length + 1)).any (fun k =>
       (t2.take k).all (fun c => !c.isWhitespace) &&
       wildMatchFrom (s2 :: rest) (t2.drop k)))

/-- `new RegExp(wildcardToRegex(pat)).test(t)`: unanchored search; the
pattern's literal chunks are its `*`-separated segments. -/
def testWildcard (pat t : List Char) : Bool :=
  (List.range (t.length + 1)).any (fun i => wildMatchFrom (splitOnChar '*' pat) (t.drop i))

/-- `textContent.includes(pattern)` (JavaScript substring test). -/
def jsIncludes (t pat : List Char) : Bool :=
  (List.range (t.length + 1)).any (fun i => pat.isPrefixOf (t.drop i))

/-- Characterwise lowercasing (JavaScript `toLowerCase` / the regex `i` flag). -/
def lowerChars (l : List Char) : List Char := l.map Char.toLower

/-- The per-text match decision of `searchInText` (and of `searchInNPCNames`,
`dialogTreeContainsMatch` and `highlightText`, which share its branch order),
with `ignoreDiacritics` off.  Both inputs are lowercased, as on the page. -/
def searchRowMatches (textContent searchTerm : String) (exactMatch useWildcards : Bool) : Bool :=
  let t := lowerChars textContent.data
  let p := lowerChars searchTerm.data
  if exactMatch then testWordBoundary p t
  else if useWildcards && searchTerm.data.contains '*' then testWildcard p t
  else jsIncludes t p

/-! ## The metadata matcher (`_match_metadata_with_npcs`, fixed variant)

The fixed variant groups the metadata records by their verbatim `name_fr`
(`metadata_by_name[meta.name_fr].append(meta)`) and assigns
`list(set(...))`-deduplicated gender and image collections to an NPC exactly
when its verbatim `name_fr` is a key of that grouping — there is no trimming
and no lowercasing.  Python's set-to-list order is unspecified; the spec
declares the order insignificant, and `List.dedup` (keep first occurrence) is
used as the deterministic representative. -/

/-- The per-NPC body of the fixed `_match_metadata_with_npcs` loop. -/
def matchOneNpc (metadata : List NPCMetadata) (npc : NPC) : NPC :=
  let matched := metadata.filter (fun meta => meta.name_fr == npc.name_fr)
  if matched.isEmpty then npc
  else
    { npc with
      genders := (matched.map (fun meta => meta.gender)).dedup
      img_urls := (matched.map (fun meta => meta.img_url)).dedup }

/-- `_match_metadata_with_npcs` (fixed variant) over the NPC collection. -/
def matchMetadataWithNpcs (npcs : List NPC) (metadata : List NPCMetadata) : List NPC :=
  npcs.map (matchOneNpc metadata)

/-- The legacy variant (`npc_dialog_mapper_gui.pyw`) instead compares
`npc.name_fr.lower().strip() == metadata.name_fr.lower().strip()` (requiring
both names truthy) and appends without deduplication. -/
def matchOneNpcLegacy (metadata : List NPCMetadata) (npc : NPC) : NPC :=
  metadata.foldl
    (fun acc meta =>
      if npc.name_fr != "" && meta.name_fr != "" &&
         trimChars (lowerChars npc.name_fr.data) == trimChars (lowerChars meta.name_fr.data) then
        { acc with
          genders := acc.genders ++ [meta.gender]
          img_urls := acc.img_urls ++ [meta.img_url] }
      else acc)
    npc

/-! ## XLIFF mode (`_load_xliff_translations` / `_merge_xliff_with_structure`,
fixed variant)

An XLIFF file is embedded after XML parsing: its target language (the second
half of the `lang_pair` key, one of en/es/pt) and the `trans-unit`s that have
both a `source` and a `target` element.  A unit id of the shape
`npc.<entityId>.<entryType>` is dispatched on `entryType`; on first sight of
an `(entityId, entryType)` pair a record `{'fr': cleaned source}` is created,
and every file then writes its own target-language key.  Python's `int()`
also accepts surrounding whitespace and signs; the unit ids in these files
are plain digit strings, modelled with `String.toNat?`. -/

/-- The target language of one XLIFF file. -/
inductive TargetLang
  | en
  | es
  | pt
deriving DecidableEq, Repr

/-- One `trans-unit` that has both `source` and `target` elements. -/
structure XliffUnit where
  unitId : String
  source : String
  target : String
deriving DecidableEq, Repr

/-- One parsed XLIFF file. -/
structure XliffFile where
  targetLang : TargetLang
  units : List XliffUnit
deriving DecidableEq, Repr

/-- One accumulated translation record (`{'fr': ..., 'en': ..., ...}`). -/
structure TransEntry where
  fr : String
  en : Option String
  es : Option String
  pt : Option String
deriving DecidableEq, Repr

/-- The entry types recognised by `_load_xliff_translations`. -/
inductive EntryType
  | name
  | message
  | reply
deriving DecidableEq, Repr

/-- `_clean_source_text`: strip a leading `[wait_mod_...]` marker (regex
`^\[wait_mod_[^\]]+\]\s*`) and surrounding whitespace. -/
def cleanSourceText (s : String) : String :=
  let pre := "[wait_mod_".data
  let cs := s.data
  let stripped :=
    if pre.isPrefixOf cs then
      let rest := cs.drop pre.length
      let body := rest.takeWhile (fun c => c ≠ ']')
      if body.length > 0 && body.length < rest.length then
        (rest.drop (body.length + 1)).dropWhile Char.isWhitespace
      else cs
    else cs
  String.mk (trimChars stripped)

/-- Parse a unit id: `unit_id.startswith('npc.')`, split on `.`, at least
three parts, numeric entity id, known entry type; anything else is skipped. -/
def parseUnitId (uid : String) : Option (Nat × EntryType) :=
  if "npc.".data.isPrefixOf uid.data then
    match splitOnChar '.' uid.data with
    | _ :: entityId :: entryType :: _ =>
      match charsToNat? entityId with
      | some n =>
        if entryType = "name".data then some (n, EntryType.name)
        else if entryType = "message".data then some (n, EntryType.message)
        else if entryType = "reply".data then some (n, EntryType.reply)
        else none
      | none => none
    | _ => none
  else none

/-- Insertion-ordered association map, the embedding of a Python dict. -/
abbrev TransMap := List (Nat × TransEntry)

/-- Dict lookup. -/
def lookupT (m : TransMap) (k : Nat) : Option TransEntry :=
  (m.find? (fun p => p.1 == k)).map Prod.snd

/-- Write one target-language key of a record. -/
def setLang (L : TargetLang) (tgt : String) (e : TransEntry) : TransEntry :=
  match L with
  | TargetLang.en => { e with en := some tgt }
  | TargetLang.es => { e with es := some tgt }
  | TargetLang.pt => { e with pt := some tgt }

/-- Read one target-language key of a record. -/
def getLang (L : TargetLang) (e : TransEntry) : Option String :=
  match L with
  | TargetLang.en => e.en
  | TargetLang.es => e.es
  | TargetLang.pt => e.pt

/-- Update the record stored under an existing key. -/
def modifyT (m : TransMap) (k : Nat) (f : TransEntry → TransEntry) : TransMap :=
  m.map (fun p => if p.1 == k then (p.1, f p.2) else p)

/-- `if entity_id_int not in dict: dict[k] = {'fr': source_text}` — the
French value is recorded once, from the first file whose source is seen. -/
def ensureEntry (m : TransMap) (k : Nat) (src : String) : TransMap :=
  if (lookupT m k).isSome then m
  else m ++ [(k, { fr := cleanSourceText src, en := none, es := none, pt := none })]

/-- The three translation dicts of `self.xliff_translations`. -/
structure TransState where
  npcNames : TransMap
  messages : TransMap
  replies : TransMap
deriving DecidableEq, Repr

/-- The empty initial translation state. -/
def initTransState : TransState := { npcNames := [], messages := [], replies := [] }

/-- Processing of one `trans-unit` by `_load_xliff_translations`. -/
def applyUnit (L : TargetLang) (st : TransState) (u : XliffUnit) : TransState :=
  match parseUnitId u.unitId with
  | none => st
  | some (k, et) =>
    match et with
    | EntryType.name =>
      { st with npcNames := modifyT (ensureEntry st.npcNames k u.source) k (setLang L u.target) }
    | EntryType.message =>
      { st with messages := modifyT (ensureEntry st.messages k u.source) k (setLang L u.target) }
    | EntryType.reply =>
      { st with replies := modifyT (ensureEntry st.replies k u.source) k (setLang L u.target) }

/-- `_load_xliff_translations`: fold over the files, then over each file's
units, each file contributing its own target language. -/
def loadXliffTranslations (files : List XliffFile) : TransState :=
  files.foldl (fun st f => f.units.foldl (applyUnit f.targetLang) st) initTransState

/-- The files' units in processing order, each tagged with its file's
target language (`loadXliffTranslations` is the left fold of `applyUnit`
over this list, proved below). -/
def taggedUnits (files : List XliffFile) : List (TargetLang × XliffUnit) :=
  files.flatMap (fun f => f.units.map (fun u => (f.targetLang, u)))

/-- The source text of the first unit (in processing order) that parses to
the key `(k, message)`. -/
def firstMessageSource (l : List (TargetLang × XliffUnit)) (k : Nat) : Option String :=
  (l.find? (fun p => parseUnitId p.2.unitId == some (k, EntryType.message))).map
    (fun p => p.2.source)

/-- The dict of `self.xliff_translations` that holds entries of the given
type: `npc_names`, `messages` or `replies`. -/
def stateMap (ty : EntryType) (st : TransState) : TransMap :=
  match ty with
  | EntryType.name => st.npcNames
  | EntryType.message => st.messages
  | EntryType.reply => st.replies

/-- The source text of the first unit (in processing order) that parses to
the key `(k, ty)`, for any of the three entry types. -/
def firstSourceFor (ty : EntryType) (l : List (TargetLang × XliffUnit)) (k : Nat) :
    Option String :=
  (l.find? (fun p => parseUnitId p.2.unitId == some (k, ty))).map (fun p => p.2.source)

/-! ## XLIFF merge (`_merge_xliff_with_structure`, fixed variant) -/

/-- One entry of `self._reply_relationships` (built from the structural reply
JSON: `reply_parent_id`, `reply_message_id`, `reply_i18n_context`). -/
structure ReplyRel where
  parent_message_id : Nat
  leads_to_message_id : Option Nat
  context : Option String
deriving DecidableEq, Repr

/-- The structural reply relationships, keyed by `reply_id`. -/
abbrev RelMap := List (Nat × ReplyRel)

/-- Dict lookup in the structural relationships. -/
def lookupRel (m : RelMap) (k : Nat) : Option ReplyRel :=
  (m.find? (fun p => p.1 == k)).map Prod.snd

/-- Messages created from the XLIFF translations (`context` is not available
in XLIFF; `replies` are attached later by `_build_relationships`). -/
def mergeXliffMessages (msgs : TransMap) : List NPCMessage :=
  msgs.map (fun p =>
    { message_id := p.1
      text_fr := p.2.fr
      text_en := p.2.en
      text_es := p.2.es
      text_pt := p.2.pt
      context := none
      replies := [] })

/-- NPCs created from the XLIFF name translations. -/
def mergeXliffNpcs (names : TransMap) : List NPC :=
  names.map (fun p =>
    { npc_id := p.1
      name_fr := p.2.fr
      name_en := p.2.en
      name_es := p.2.es
      name_pt := p.2.pt
      context := none
      dialogs := []
      genders := []
      img_urls := [] })

/-- One reply created from its XLIFF translations plus the structural
relationship record; `relationship.get('parent_message_id', 0)` defaults the
parent to `0` and `relationship.get('leads_to_message_id')` to `None` when
the reply has no structural record. -/
def mergeOneReply (rels : RelMap) (p : Nat × TransEntry) : NPCReply :=
  let relationship := lookupRel rels p.1
  { reply_id := p.1
    text_fr := p.2.fr
    text_en := p.2.en
    text_es := p.2.es
    text_pt := p.2.pt
    context := relationship.bind (fun r => r.context)
    parent_message_id := (relationship.map (fun r => r.parent_message_id)).getD 0
    leads_to_message_id := relationship.bind (fun r => r.leads_to_message_id) }

/-- Replies created from the XLIFF translations enriched with structure. -/
def mergeXliffReplies (replies : TransMap) (rels : RelMap) : List NPCReply :=
  replies.map (mergeOneReply rels)

/-! ## `_build_relationships` (fixed variant) -/

/-- Link every dialog whose `npc_id` exists to that NPC, then sort each NPC's
dialogs by `check_order` (`list.sort` is stable, as is `mergeSort`). -/
def linkDialogsToNpcs (npcs : List NPC) (dialogs : List NPCDialog) : List NPC :=
  npcs.map (fun n =>
    { n with
      dialogs :=
        (n.dialogs ++ dialogs.filter (fun d => d.npc_id == n.npc_id)).mergeSort
          (fun a b => a.check_order ≤ b.check_order) })

/-- Link every reply whose `parent_message_id` exists to that message (in
reply iteration order); replies with a dangling parent are dropped silently. -/
def linkRepliesToMessages (messages : List NPCMessage) (replies : List NPCReply) : List NPCMessage :=
  messages.map (fun m =>
    { m with replies := m.replies ++ replies.filter (fun r => r.parent_message_id == m.message_id) })

/-! ## JSON-mode loaders (claim C2)

The loaders are embedded at the file level: the input of each loader is
`none` when its file is absent (Python's `open` then raises
`FileNotFoundError`, or the loader raises it explicitly) and `some records`
when the file parses to its record list.  In the fixed variant every one of
`_load_npcs` / `_load_messages` / `_load_replies` / `_load_dialogs` ends in
`except Exception as e: print(...); raise`, so an absent file aborts the
load; in the legacy variant (`npc_dialog_mapper_gui.pyw`) the NPC, message
and reply loaders instead print a warning and return with the collection
left empty, and only `_load_dialogs` raises `FileNotFoundError`. -/

/-- The error carried out of a loader (`FileNotFoundError`). -/
inductive LoadError
  | missingFile (name : String)
deriving DecidableEq, Repr

/-- Raw record of `export_npc_json.json` as read by the fixed `_load_npcs`
(the legacy variant reads the same logical fields, with the context under
the key `npc_contextual_speech`). -/
structure RawNpcRecord where
  npc_id : Nat
  npc_name_fr : String
  npc_name_en : Option String
  npc_name_es : Option String
  npc_name_pt : Option String
  context : Option String
deriving DecidableEq, Repr

/-- Raw record of `export_npc_message_json.json` (fixed variant keys
`message_text_*`; legacy keys `message_*`). -/
structure RawMessageRecord where
  message_id : Nat
  message_text_fr : String
  message_text_en : Option String
  message_text_es : Option String
  message_text_pt : Option String
  message_i18n_context : Option String
deriving DecidableEq, Repr

/-- Raw record of `export_npc_reply_json.json`. -/
structure RawReplyRecord where
  reply_id : Nat
  reply_text_fr : String
  reply_text_en : Option String
  reply_text_es : Option String
  reply_text_pt : Option String
  reply_i18n_context : Option String
  reply_parent_id : Nat
  reply_message_id : Option Nat
deriving DecidableEq, Repr

/-- Raw record of `export_npc_dialog_json.json`. -/
structure RawDialogRecord where
  dialog_id : Nat
  dialog_npc_id : Nat
  dialog_message_id : Nat
  dialog_message_check_order : Nat
deriving DecidableEq, Repr

/-- Python dict assignment `m[k] = v`: overwrite in place if the key exists,
append otherwise. -/
def dictInsert {α : Type} (m : List (Nat × α)) (k : Nat) (v : α) : List (Nat × α) :=
  if (m.find? (fun p => p.1 == k)).isSome then
    m.map (fun p => if p.1 == k then (k, v) else p)
  else m ++ [(k, v)]

/-- Entity built by the fixed `_load_npcs` loop. -/
def npcOfRaw (r : RawNpcRecord) : NPC :=
  { npc_id := r.npc_id
    name_fr := r.npc_name_fr
    name_en := r.npc_name_en
    name_es := r.npc_name_es
    name_pt := r.npc_name_pt
    context := r.context
    dialogs := []
    genders := []
    img_urls := [] }

/-- Entity built by the fixed `_load_messages` loop. -/
def messageOfRaw (r : RawMessageRecord) : NPCMessage :=
  { message_id := r.message_id
    text_fr := r.message_text_fr
    text_en := r.message_text_en
    text_es := r.message_text_es
    text_pt := r.message_text_pt
    context := r.message_i18n_context
    replies := [] }

/-- Entity built by the fixed `_load_replies` loop. -/
def replyOfRaw (r : RawReplyRecord) : NPCReply :=
  { reply_id := r.reply_id
    text_fr := r.reply_text_fr
    text_en := r.reply_text_en
    text_es := r.reply_text_es
    text_pt := r.reply_text_pt
    context := r.reply_i18n_context
    parent_message_id := r.reply_parent_id
    leads_to_message_id := r.reply_message_id }

/-- Entity built by both variants' `_load_dialogs` loop. -/
def dialogOfRaw (r : RawDialogRecord) : NPCDialog :=
  { dialog_id := r.dialog_id
    npc_id := r.dialog_npc_id
    message_id := r.dialog_message_id
    check_order := r.dialog_message_check_order }

/-- Fixed `_load_npcs`: an absent file raises (`except ...: raise`). -/
def loadNpcsFixed : Option (List RawNpcRecord) → Except LoadError (List (Nat × NPC))
  | none => Except.error (LoadError.missingFile "export_npc_json.json")
  | some records =>
    Except.ok (records.foldl (fun m r => dictInsert m r.npc_id (npcOfRaw r)) [])

/-- Fixed `_load_messages`: an absent file raises. -/
def loadMessagesFixed : Option (List RawMessageRecord) → Except LoadError (List (Nat × NPCMessage))
  | none => Except.error (LoadError.missingFile "export_npc_message_json.json")
  | some records =>
    Except.ok (records.foldl (fun m r => dictInsert m r.message_id (messageOfRaw r)) [])

/-- Fixed `_load_replies`: an absent file raises. -/
def loadRepliesFixed : Option (List RawReplyRecord) → Except LoadError (List (Nat × NPCReply))
  | none => Except.error (LoadError.missingFile "export_npc_reply_json.json")
  | some records =>
    Except.ok (records.foldl (fun m r => dictInsert m r.reply_id (replyOfRaw r)) [])

/-- Fixed `_load_dialogs`: an absent file raises. -/
def loadDialogsFixed : Option (List RawDialogRecord) → Except LoadError (List NPCDialog)
  | none => Except.error (LoadError.missingFile "export_npc_dialog_json.json")
  | some records => Except.ok (records.map dialogOfRaw)

/-- Legacy `_load_npcs`: an absent file only warns and leaves `self.npcs`
empty (`if not os.path.exists(...): print(...); return`). -/
def loadNpcsLegacy : Option (List RawNpcRecord) → Except LoadError (List (Nat × NPC))
  | none => Except.ok []
  | some records =>
    Except.ok (records.foldl (fun m r => dictInsert m r.npc_id (npcOfRaw r)) [])

/-- Legacy `_load_messages`: an absent file only warns, empty result. -/
def loadMessagesLegacy : Option (List RawMessageRecord) → Except LoadError (List (Nat × NPCMessage))
  | none => Except.ok []
  | some records =>
    Except.ok (records.foldl (fun m r => dictInsert m r.message_id (messageOfRaw r)) [])

/-- Legacy `_load_replies`: an absent file only warns, empty result. -/
def loadRepliesLegacy : Option (List RawReplyRecord) → Except LoadError (List (Nat × NPCReply))
  | none => Except.ok []
  | some records =>
    Except.ok (records.foldl (fun m r => dictInsert m r.reply_id (replyOfRaw r)) [])

/-- Legacy `_load_dialogs`: an absent file raises
`FileNotFoundError("Required file not found: export_npc_dialog_json.json")`. -/
def loadDialogsLegacy : Option (List RawDialogRecord) → Except LoadError (List NPCDialog)
  | none => Except.error (LoadError.missingFile "export_npc_dialog_json.json")
  | some records => Except.ok (records.map dialogOfRaw)

/-- The four entity collections of a JSON-mode load. -/
structure JsonLoadResult where
  npcs : List (Nat × NPC)
  messages : List (Nat × NPCMessage)
  replies : List (Nat × NPCReply)
  dialogs : List NPCDialog
deriving DecidableEq, Repr

/-- The JSON branch of the fixed `load_data` (loaders run in source order;
an exception from any of them aborts the whole load). -/
def loadDataJsonFixed (npcF : Option (List RawNpcRecord))
    (msgF : Option (List RawMessageRecord)) (rplF : Option (List RawReplyRecord))
    (dlgF : Option (List RawDialogRecord)) : Except LoadError JsonLoadResult := do
  let npcs ← loadNpcsFixed npcF
  let messages ← loadMessagesFixed msgF
  let replies ← loadRepliesFixed rplF
  let dialogs ← loadDialogsFixed dlgF
  return { npcs := npcs, messages := messages, replies := replies, dialogs := dialogs }

/-- The JSON branch of the legacy `load_data` (same loader order). -/
def loadDataJsonLegacy (npcF : Option (List RawNpcRecord))
    (msgF : Option (List RawMessageRecord)) (rplF : Option (List RawReplyRecord))
    (dlgF : Option (List RawDialogRecord)) : Except LoadError JsonLoadResult := do
  let npcs ← loadNpcsLegacy npcF
  let messages ← loadMessagesLegacy msgF
  let replies ← loadRepliesLegacy rplF
  let dialogs ← loadDialogsLegacy dlgF
  return { npcs := npcs, messages := messages, replies := replies, dialogs := dialogs }

/-! ## NPC cards and the document (`_generate_npc_card`,
`_generate_html_content`, fixed variant) -/

/-- The gender spans built by `_generate_npc_card` (unknown codes are
silently skipped by the if/elif chain). -/
def genderSpanItems (genders : List Nat) : List String :=
  genders.filterMap (fun gender =>
    if gender = 0 then some "<span class=\"gender-male\">Male</span>"
    else if gender = 1 then some "<span class=\"gender-female\">Female</span>"
    else if gender = 2 then some "<span class=\"gender-undefined\">Undefined</span>"
    else none)

/-- `gender_info`: empty unless the NPC has matched genders. -/
def genderInfoHtml (npc : NPC) : String :=
  if npc.genders.isEmpty then ""
  else
    "<div class=\"npc-gender\"><strong>Gender:</strong> " ++
    String.intercalate ", " (genderSpanItems npc.genders) ++ "</div>"

/-- `img_data_attr`: the `|`-joined image URLs, when any matched. -/
def imgDataAttrHtml (npc : NPC) : String :=
  if npc.img_urls.isEmpty then ""
  else "data-img-urls=\"" ++ String.intercalate "|" npc.img_urls ++ "\""

/-- The optional context line of the card (`if npc.context` is Python
truthiness: `None` and `""` produce nothing). -/
def npcContextHtml : Option String → String
  | none => ""
  | some c =>
    if c = "" then ""
    else "<div class=\"npc-context\"><strong>Context:</strong> " ++ c ++ "</div>"

/-- The wrapper emitted around one dialog's rendered tree. -/
def dialogContainerHtml (dialog : NPCDialog) (dialog_html : String) : String :=
  "\n                <div class=\"dialog-container collapsible\">\n" ++
  "                    <div class=\"dialog-header clickable-header\">\n" ++
  "                        <strong>Dialog ID: " ++ toString dialog.dialog_id ++ "</strong> \n" ++
  "                        (Check Order: " ++ toString dialog.check_order ++ ")\n" ++
  "                        <span class=\"collapse-indicator\">−</span>\n" ++
  "                    </div>\n" ++
  "                    <div class=\"collapsible-content\">\n" ++
  "                        " ++ dialog_html ++ "\n" ++
  "                    </div>\n" ++
  "                </div>\n                "

/-- `_generate_npc_card`: dialogs whose entry `message_id` is not a loaded
message are skipped (`if dialog.message_id in self.messages`); each resolved
dialog's tree is rendered from level 0 with a fresh `visited` set. -/
def generateNpcCard (messages : List NPCMessage) (npc : NPC) : String :=
  let gender_info := genderInfoHtml npc
  let img_data_attr := imgDataAttrHtml npc
  let dialogs_html := String.join (npc.dialogs.map (fun dialog =>
    if (messages.find? (fun m => m.message_id == dialog.message_id)).isSome then
      dialogContainerHtml dialog (generateDialogTree messages dialog.message_id 0 [])
    else ""))
  "\n        <div class=\"npc-card collapsible\" data-npc-id=\"" ++ toString npc.npc_id ++
  "\" " ++ img_data_attr ++ ">\n" ++
  "            <div class=\"npc-header sticky-header\">\n" ++
  "                <div class=\"header-content\">\n" ++
  "                    <h2 class=\"clickable-header\">🧙‍♂️ " ++ npc.name_fr ++
  " <span class=\"npc-id\">(ID: " ++ toString npc.npc_id ++
  ")</span> <span class=\"collapse-indicator\">−</span></h2>\n" ++
  "                    <div class=\"npc-info-grid collapsible-content\">\n" ++
  "                        <div class=\"npc-names\">\n" ++
  "                            <div class=\"lang-row\">\n" ++
  "                                <span class=\"lang-label\">FR:</span> " ++
    formatTextWithNullCheck (some npc.name_fr) ++ "\n" ++
  "                            </div>\n" ++
  "                            <div class=\"lang-row\">\n" ++
  "                                <span class=\"lang-label\">EN:</span> " ++
    formatTextWithNullCheck npc.name_en ++ "\n" ++
  "                            </div>\n" ++
  "                            <div class=\"lang-row\">\n" ++
  "                                <span class=\"lang-label\">ES:</span> " ++
    formatTextWithNullCheck npc.name_es ++ "\n" ++
  "                            </div>\n" ++
  "                            <div class=\"lang-row\">\n" ++
  "                                <span class=\"lang-label\">PT:</span> " ++
    formatTextWithNullCheck npc.name_pt ++ "\n" ++
  "                            </div>\n" ++
  "                        </div>\n" ++
  "                        <div class=\"npc-metadata\">\n" ++
  "                            " ++ gender_info ++ "\n" ++
  "                            " ++ npcContextHtml npc.context ++ "\n" ++
  "                        </div>\n" ++
  "                    </div>\n" ++
  "                </div>\n" ++
  "                <div class=\"npc-image-container\" style=\"display: none;\">\n" ++
  "                    <img class=\"npc-image\" src=\"\" alt=\"NPC Image\" />\n" ++
  "                </div>\n" ++
  "            </div>\n" ++
  "            <div class=\"dialogs collapsible-content\">\n" ++
  "                " ++ dialogs_html ++ "\n" ++
  "            </div>\n" ++
  "        </div>\n        "

/-- The sort key comparison of `sorted(self.npcs.values(),
key=lambda x: x.name_fr.lower())`: code-point order on the lowercased
French name. -/
def npcSortLe (a b : NPC) : Bool :=
  decide (a.name_fr.toLower ≤ b.name_fr.toLower)

/-- The NPCs that contribute a card, in document order: sorted by the
lowercased French name (Python's `sorted` and `mergeSort` are both stable),
NPCs without dialogs skipped (`if not npc.dialogs: continue`). -/
def npcRenderList (npcs : List NPC) : List NPC :=
  (npcs.mergeSort npcSortLe).filter (fun npc => !npc.dialogs.isEmpty)

/-- The in-memory state after `load_data`, as consumed by the renderer:
the five entity collections (dict values in insertion order). -/
structure LoadedDataset where
  npcs : List NPC
  messages : List NPCMessage
  replies : List NPCReply
  dialogs : List NPCDialog
  metadata : List NPCMetadata
deriving DecidableEq, Repr

/-- Stands for the fixed document text of `_generate_html_content` before
the NPC cards (doctype, head, inline CSS of `_get_css_styles`, header and
search UI) — a string constant independent of the dataset, abbreviated here
to its opening line. -/
def htmlDocPrefix : String :=
  "<!DOCTYPE html>\n<html lang=\"en\">\n<head>\n    <title>NPC Dialog Mapping - Dofus Retro</title>\n</head>\n<body>\n"

/-- Stands for the fixed document text after the NPC cards (help menu,
inline script of `_get_javascript`, closing tags) — likewise a constant. -/
def htmlDocSuffix : String :=
  "\n    <script>searchInText</script>\n</body>\n</html>"

/-- `_generate_html_content`: the concatenation of the cards of
`npcRenderList` between the two constant document halves. -/
def generateHtmlContent (d : LoadedDataset) : String :=
  htmlDocPrefix ++ String.join ((npcRenderList d.npcs).map (generateNpcCard d.messages)) ++
  htmlDocSuffix

/-! ## Concrete datasets used to exercise the renderer and the pipeline -/

/-- A reply of message 1 that loops straight back to message 1. -/
def selfLoopReply : NPCReply := ⟨201, "a", none, none, none, none, 1, some 1⟩

/-- A one-message dataset whose reply chain loops back to its own message. -/
def msgsSelfLoop : List NPCMessage := [⟨1, "a", none, none, none, none, [selfLoopReply]⟩]

/-- Render of the self-loop dataset from its entry message. -/
def selfLoopRenderHtml : String := generateDialogTree msgsSelfLoop 1 0 []

/-- First sibling branch of the diamond: message 1 → message 2. -/
def diamondReplyA : NPCReply := ⟨301, "a", none, none, none, none, 1, some 2⟩

/-- Second sibling branch of the diamond: message 1 → message 2 again. -/
def diamondReplyB : NPCReply := ⟨302, "b", none, none, none, none, 1, some 2⟩

/-- Message 2 is reachable through two disjoint sibling reply branches. -/
def msgsDiamond : List NPCMessage :=
  [⟨1, "a", none, none, none, none, [diamondReplyA, diamondReplyB]⟩,
   ⟨2, "c", none, none, none, none, []⟩]

/-- Render of the diamond dataset from its entry message. -/
def diamondRenderHtml : String := generateDialogTree msgsDiamond 1 0 []

/-- A single conversational turn: message 1 → reply 101 → message 2. -/
def chainReply1 : NPCReply := ⟨101, "a", none, none, none, none, 1, some 2⟩

/-- Two-message chain entered at depth 0. -/
def msgsChain : List NPCMessage :=
  [⟨1, "a", none, none, none, none, [chainReply1]⟩,
   ⟨2, "b", none, none, none, none, []⟩]

/-- Render of the chain dataset from its entry message at level 0. -/
def chainRenderHtml : String := generateDialogTree msgsChain 1 0 []

/-- The reply taking the deep chain past the visual indentation cap. -/
def deepReply : NPCReply := ⟨108, "a", none, none, none, none, 8, some 9⟩

/-- Messages 8 → reply 108 → message 9, the tail of a long conversation. -/
def msgsDeep : List NPCMessage :=
  [⟨8, "a", none, none, none, none, [deepReply]⟩,
   ⟨9, "b", none, none, none, none, []⟩]

/-- Render of the deep pair at nesting level 14 (the level the recursion
passes when this pair hangs below seven earlier conversational turns), so
message 9 is reached at stored depth 16, one past the cap. -/
def deepRenderHtml : String := generateDialogTree msgsDeep 8 14 []

/-- An NPC whose French name differs from the metadata's only by trailing
whitespace and letter case. -/
def npcGarde : NPC := ⟨7, "Garde ", none, none, none, none, [], [], []⟩

/-- Metadata record whose French name is `"garde"`. -/
def metaGarde : NPCMetadata :=
  ⟨1, 1, "look1", "img1", "m1", "Guard", "Guarda", "Guardia", "garde", "Wache"⟩

/-- An NPC whose French name equals the metadata names verbatim. -/
def npcGardeExact : NPC := ⟨8, "Garde", none, none, none, none, [], [], []⟩

/-- First metadata record named `"Garde"`, gender 0. -/
def metaGardeMale : NPCMetadata :=
  ⟨2, 0, "look2", "img2", "m2", "Guard", "Guarda", "Guardia", "Garde", "Wache"⟩

/-- Second metadata record named `"Garde"`, gender 1, same image as the first. -/
def metaGardeFemale : NPCMetadata :=
  ⟨3, 1, "look3", "img2", "m3", "Guard", "Guarda", "Guardia", "Garde", "Wache"⟩

/-- English translation file carrying unit `npc.42.message`. -/
def xliffFileEn : XliffFile :=
  ⟨TargetLang.en, [⟨"npc.42.message", "Bonjour", "Hello"⟩]⟩

/-- Spanish translation file carrying the same unit. -/
def xliffFileEs : XliffFile :=
  ⟨TargetLang.es, [⟨"npc.42.message", "Bonjour", "Hola"⟩]⟩

/-- The two-file XLIFF example of the merge-correctness scenario. -/
def xliffExampleFiles : List XliffFile := [xliffFileEn, xliffFileEs]

/-- Translation entry of a reply that has no structural record. -/
def orphanEntry : TransEntry := ⟨"Oui", some "Yes", none, none⟩

/-- Reply translations containing only the orphan reply 5. -/
def orphanReplies : TransMap := [(5, orphanEntry)]

/-- Message translations containing a message with id 0. -/
def orphanMsgsT : TransMap := [(0, ⟨"Salut", none, none, none⟩)]

/-- A translation state whose only reply has no structural record. -/
def orphanState : TransState :=
  { npcNames := [], messages := orphanMsgsT, replies := orphanReplies }

/-- An NPC with one dialog, named so that it sorts after `npcBeta`. -/
def npcZulu : NPC := ⟨1, "Zulu", none, none, none, none, [⟨11, 1, 100, 0⟩], [], []⟩

/-- An NPC with one dialog, named so that it sorts before `npcZulu`. -/
def npcBeta : NPC := ⟨2, "beta", none, none, none, none, [⟨12, 2, 100, 0⟩], [], []⟩

/-- An NPC with an empty dialog list (contributes no card). -/
def npcNoDialogs : NPC := ⟨3, "Alpha", none, none, none, none, [], [], []⟩

/-- A small loaded dataset exercising the whole-document renderer. -/
def exampleDataset : LoadedDataset :=
  { npcs := [npcZulu, npcBeta, npcNoDialogs]
    messages := [⟨100, "Salut", none, none, none, none, []⟩]
    replies := []
    dialogs := [⟨11, 1, 100, 0⟩, ⟨12, 2, 100, 0⟩]
    metadata := [] }

/-! ## Auxiliary lemmas -/

/-- Filtering with a stronger predicate yields at most as many elements. -/
theorem length_filter_le_of_imp {α : Type} (l : List α) (p q : α → Bool)
    (h : ∀ a, p a = true → q a = true) :
    (l.filter p).length ≤ (l.filter q).length := by
  rw [← List.countP_eq_length_filter, ← List.countP_eq_length_filter]
  exact List.countP_mono_left (fun a _ ha => h a ha)

/-- Excluding a present, not-yet-excluded element strictly shrinks the
filtered list. -/
theorem length_filter_cons_contains_lt (l v : List Nat) (a : Nat)
    (ha : a ∈ l) (hv : v.contains a = false) :
    (l.filter (fun i => !((a :: v).contains i))).length <
      (l.filter (fun i => !(v.contains i))).length := by
  induction l with
  | nil => cases ha
  | cons x xs ih =>
    rw [List.filter_cons, List.filter_cons]
    by_cases hx : x = a
    · subst hx
      have h2 : ((x :: v).contains x) = true := by
        simp [List.contains_cons]
      have h1 : (v.contains x) = false := hv
      simp only [h2, h1, Bool.not_true, Bool.not_false, if_false, if_true]
      have hle := length_filter_le_of_imp xs
        (fun i => !((x :: v).contains i)) (fun i => !(v.contains i))
        (by
          intro a hpa
          have hpa' : (!((x :: v).contains a)) = true := hpa
          show (!(v.contains a)) = true
          have h3 : ((x :: v).contains a) = false := by
            cases h4 : (x :: v).contains a with
            | false => rfl
            | true => rw [h4] at hpa'; exact absurd hpa' (by decide)
          rw [List.contains_cons] at h3
          rcases Bool.or_eq_false_iff.mp h3 with ⟨_, h5⟩
          rw [h5]
          rfl)
      simpa using Nat.lt_succ_of_le hle
    · have hmem : a ∈ xs := by
        cases ha with
        | head => exact absurd rfl hx
        | tail _ h => exact h
      have hsame : ((a :: v).contains x) = (v.contains x) := by
        have hne : (x == a) = false := beq_eq_false_iff_ne.mpr hx
        rw [List.contains_cons, hne, Bool.false_or]
      rw [hsame]
      by_cases hvx : (v.contains x) = true
      · simp only [hvx, Bool.not_true, if_false]
        exact ih hmem
      · have hvx' : (v.contains x) = false := by simpa using hvx
        simp only [hvx', Bool.not_false, if_true, List.length_cons]
        exact Nat.succ_lt_succ (ih hmem)

/-- Entering an unvisited loaded message strictly shrinks the unvisited count. -/
theorem unvisitedCount_cons_lt (msgs : List NPCMessage) (visited : List Nat) (mid : Nat)
    (hm : mid ∈ msgs.map (fun m => m.message_id)) (hv : visited.contains mid = false) :
    unvisitedCount msgs (mid :: visited) < unvisitedCount msgs visited :=
  length_filter_cons_contains_lt _ _ _ hm hv

/-- Two renderers that agree on every continuation id produce the same
nested block. -/
theorem replyNestedHtml_congr (msgs : List NPCMessage) (r1 r2 : Nat → String)
    (reply : NPCReply) (h : ∀ nid, r1 nid = r2 nid) :
    replyNestedHtml msgs r1 reply = replyNestedHtml msgs r2 reply := by
  unfold replyNestedHtml
  rcases reply.leads_to_message_id with _ | nid
  · rfl
  · show
      (if (nid != 0 && (msgs.find? (fun m2 => m2.message_id == nid)).isSome) = true then
        "<div class=\"nested-messages\">" ++ r1 nid ++ "</div>"
      else "") =
      (if (nid != 0 && (msgs.find? (fun m2 => m2.message_id == nid)).isSome) = true then
        "<div class=\"nested-messages\">" ++ r2 nid ++ "</div>"
      else "")
    by_cases hguard : (nid != 0 && (msgs.find? (fun m2 => m2.message_id == nid)).isSome) = true
    · rw [if_pos hguard, if_pos hguard, h nid]
    · rw [if_neg hguard, if_neg hguard]

set_option maxHeartbeats 1000000 in
/-- One extra unit of fuel never changes the output once the fuel exceeds
the number of unvisited messages: the recursion of `_generate_dialog_tree`
bottoms out before the fuel does. -/
theorem generateDialogTreeFuel_succ (f : Nat) :
    ∀ (msgs : List NPCMessage) (mid level : Nat) (visited : List Nat),
      unvisitedCount msgs visited < f →
      generateDialogTreeFuel (f + 1) msgs mid level visited =
        generateDialogTreeFuel f msgs mid level visited := by
  induction f with
  | zero => intro msgs mid level visited h; exact absurd h (Nat.not_lt_zero _)
  | succ g ih =>
    intro msgs mid level visited h
    rcases hfind : msgs.find? (fun x => x.message_id == mid) with _ | m
    · rw [generateDialogTreeFuel.eq_2, generateDialogTreeFuel.eq_2, hfind]
    · rw [generateDialogTreeFuel.eq_2, generateDialogTreeFuel.eq_2]
      simp only [hfind]
      by_cases hvis : visited.contains mid = true
      · rw [if_pos hvis, if_pos hvis]
      · have hvis' : visited.contains mid = false := by simpa using hvis
        have hmidmem : mid ∈ msgs.map (fun x => x.message_id) := by
          have h1 := List.find?_some hfind
          have h2 : m ∈ msgs := List.mem_of_find?_eq_some hfind
          have h3 : m.message_id = mid := by simpa using h1
          exact h3 ▸ List.mem_map_of_mem _ h2
        have hlt : unvisitedCount msgs (mid :: visited) < unvisitedCount msgs visited :=
          unvisitedCount_cons_lt msgs visited mid hmidmem hvis'
        rw [if_neg hvis, if_neg hvis]
        refine congrArg (fun z => z ++ "</div>") ?_
        refine congrArg (fun z => messageOpenHtml m level (min level maxLevel) ++ z) ?_
        by_cases hre : m.replies.isEmpty = true
        · rw [if_pos hre, if_pos hre]
        · rw [if_neg hre, if_neg hre]
          refine congrArg (fun z => z ++ "</div>") ?_
          refine congrArg (fun z => "<div class=\"replies collapsible-nested\">" ++ z) ?_
          refine congrArg String.join ?_
          refine List.map_congr_left ?_
          intro reply hreply
          refine congrArg (replyBlockHtml level reply) ?_
          refine replyNestedHtml_congr msgs _ _ reply ?_
          intro nid
          exact ih msgs nid (level + 2) (mid :: visited) (by omega)

/-- Any sufficient amount of fuel computes `generateDialogTree`'s value:
the recursion bottoms out once the fuel exceeds the number of unvisited
messages, so the render is well defined (it terminates) on every input. -/
theorem generateDialogTreeFuel_stable (f : Nat) :
    ∀ (msgs : List NPCMessage) (mid level : Nat) (visited : List Nat),
      unvisitedCount msgs visited < f →
      generateDialogTreeFuel f msgs mid level visited =
        generateDialogTree msgs mid level visited := by
  induction f with
  | zero => intro msgs mid level visited h; exact absurd h (Nat.not_lt_zero _)
  | succ g ih =>
    intro msgs mid level visited h
    by_cases h2 : unvisitedCount msgs visited < g
    · rw [generateDialogTreeFuel_succ g msgs mid level visited h2]
      exact ih msgs mid level visited h2
    · have hg : unvisitedCount msgs visited = g := by omega
      simp only [generateDialogTree, hg]

/-- Folding string concatenation from an arbitrary seed factors the seed out. -/
theorem stringFoldl_append (l : List String) :
    ∀ s : String, l.foldl (fun r t => r ++ t) s = s ++ l.foldl (fun r t => r ++ t) "" := by
  induction l with
  | nil => intro s; rw [List.foldl_nil, List.foldl_nil, String.append_empty]
  | cons a l ih =>
    intro s
    rw [List.foldl_cons, List.foldl_cons, ih (s ++ a), ih ("" ++ a), String.empty_append,
      String.append_assoc]

/-- `String.join` distributes over `::`. -/
theorem stringJoin_cons (a : String) (l : List String) :
    String.join (a :: l) = a ++ String.join l := by
  show (a :: l).foldl (fun r t => r ++ t) "" = a ++ l.foldl (fun r t => r ++ t) ""
  rw [List.foldl_cons, String.empty_append]
  exact stringFoldl_append l a

/-- `String.join` distributes over `++`. -/
theorem stringJoin_append (l1 l2 : List String) :
    String.join (l1 ++ l2) = String.join l1 ++ String.join l2 := by
  induction l1 with
  | nil => exact (String.empty_append _).symm
  | cons a l ih =>
    rw [List.cons_append, stringJoin_cons, stringJoin_cons, ih, String.append_assoc]

/-- A member of the joined list occurs contiguously in the join. -/
theorem stringJoin_mem_split (x : String) (l : List String) (hx : x ∈ l) :
    ∃ pre post, String.join l = pre ++ (x ++ post) := by
  obtain ⟨s, t, rfl⟩ := List.append_of_mem hx
  exact ⟨String.join s, String.join t, by rw [stringJoin_append, stringJoin_cons]⟩

/-- The rendered message block contains, for each of its replies, exactly the
block built from the same path-extended visited set `mid :: visited`:
sibling reply branches all recurse on the same copied path state. -/
theorem dialogTree_branch_split
    (f : Nat) (msgs : List NPCMessage) (mid level : Nat) (visited : List Nat)
    (m : NPCMessage) (reply : NPCReply)
    (hfind : msgs.find? (fun x => x.message_id == mid) = some m)
    (hvis : visited.contains mid = false)
    (hr : reply ∈ m.replies) :
    ∃ pre post,
      generateDialogTreeFuel (f + 1) msgs mid level visited =
        pre ++
        (replyBlockHtml level reply
          (replyNestedHtml msgs
            (fun nid => generateDialogTreeFuel f msgs nid (level + 2) (mid :: visited))
            reply) ++ post) := by
  rw [generateDialogTreeFuel.eq_2]
  simp only [hfind]
  have hvis2 : ¬(visited.contains mid = true) := by rw [hvis]; decide
  rw [if_neg hvis2]
  have hne : ¬(m.replies.isEmpty = true) := by
    intro hemp
    rw [List.isEmpty_iff] at hemp
    rw [hemp] at hr
    cases hr
  rw [if_neg hne]
  have hmem := List.mem_map_of_mem
    (fun reply => replyBlockHtml level reply
      (replyNestedHtml msgs
        (fun nid => generateDialogTreeFuel f msgs nid (level + 2) (mid :: visited)) reply)) hr
  obtain ⟨pre0, post0, hsplit⟩ := stringJoin_mem_split _ _ hmem
  refine ⟨messageOpenHtml m level (min level maxLevel) ++
    ("<div class=\"replies collapsible-nested\">" ++ pre0),
    post0 ++ ("</div>" ++ "</div>"), ?_⟩
  rw [hsplit]
  simp only [String.append_assoc]

/-! ## Claim theorems -/

set_option maxRecDepth 1000000 in
/-- C1: for every loaded dataset, including one whose reply→message graph
contains a cycle, the recursive dialog-tree render terminates (any fuel above
the number of unvisited messages computes the same, well-defined value), a
message already on the current path is emitted as the terminal reference
marker showing the target message id, and on a concrete self-loop the
revisited message appears exactly once as a marker and exactly once as a full
message node — never as a duplicate full subtree. -/
theorem dialogTreeRender_terminates_and_marks_cycles :
    (∀ (msgs : List NPCMessage) (mid level : Nat) (visited : List Nat) (f : Nat),
        unvisitedCount msgs visited < f →
        generateDialogTreeFuel f msgs mid level visited =
          generateDialogTree msgs mid level visited) ∧
    (∀ (msgs : List NPCMessage) (mid level : Nat) (visited : List Nat) (m : NPCMessage),
        msgs.find? (fun x => x.message_id == mid) = some m →
        visited.contains mid = true →
        generateDialogTree msgs mid level visited = messageRefHtml mid) ∧
    countOccur (messageRefHtml 1).data selfLoopRenderHtml.data = 1 ∧
    countOccur "<strong>💬 Message ID: 1</strong>".data selfLoopRenderHtml.data = 1 := by
  refine ⟨fun msgs mid level visited f h =>
    generateDialogTreeFuel_stable f msgs mid level visited h, ?_, ?_, ?_⟩
  · intro msgs mid level visited m hfind hvis
    unfold generateDialogTree
    rw [generateDialogTreeFuel.eq_2]
    simp only [hfind]
    rw [if_pos hvis]
  · decide
  · decide

set_option maxRecDepth 1000000 in
/-- Witness for C1 at concrete inputs: fuel 2 suffices for the self-loop
dataset, and rendering message 1 with 1 already on the path yields the
reference marker. -/
theorem dialogTreeRender_terminates_and_marks_cycles_witness :
    generateDialogTreeFuel 2 msgsSelfLoop 1 0 [] = generateDialogTree msgsSelfLoop 1 0 [] ∧
    generateDialogTree msgsSelfLoop 1 5 [1] = messageRefHtml 1 :=
  ⟨dialogTreeRender_terminates_and_marks_cycles.1 msgsSelfLoop 1 0 [] 2 (by decide),
   dialogTreeRender_terminates_and_marks_cycles.2.1 msgsSelfLoop 1 5 [1]
     ⟨1, "a", none, none, none, none, [selfLoopReply]⟩ (by decide) (by decide)⟩

set_option maxRecDepth 1000000 in
/-- C6: the visited set is scoped to the current path and passed as a copy to
each reply branch — every sibling reply's block recurses on the same
path-extended set `mid :: visited`, so on a concrete diamond (message 2
reachable through two disjoint sibling branches) both branches render the
full subtree of message 2 and no reference marker appears, while a path
revisiting its own ancestor (the self-loop) is cut short by a marker. -/
theorem dialogTreeRender_visited_copied_per_branch :
    (∀ (f : Nat) (msgs : List NPCMessage) (mid level : Nat) (visited : List Nat)
        (m : NPCMessage) (reply : NPCReply),
        msgs.find? (fun x => x.message_id == mid) = some m →
        visited.contains mid = false →
        reply ∈ m.replies →
        ∃ pre post,
          generateDialogTreeFuel (f + 1) msgs mid level visited =
            pre ++
            (replyBlockHtml level reply
              (replyNestedHtml msgs
                (fun nid => generateDialogTreeFuel f msgs nid (level + 2) (mid :: visited))
                reply) ++ post)) ∧
    countOccur "<strong>💬 Message ID: 2</strong>".data diamondRenderHtml.data = 2 ∧
    countOccur "message-ref".data diamondRenderHtml.data = 0 ∧
    countOccur "message-ref".data selfLoopRenderHtml.data = 1 := by
  refine ⟨fun f msgs mid level visited m reply hfind hvis hr =>
    dialogTree_branch_split f msgs mid level visited m reply hfind hvis hr, ?_, ?_, ?_⟩
  · decide
  · decide
  · decide

set_option maxRecDepth 1000000 in
/-- Witness for C6 at concrete inputs: the first sibling branch of the
diamond occurs in the rendered output with the shared path state. -/
theorem dialogTreeRender_visited_copied_per_branch_witness :
    ∃ pre post,
      generateDialogTreeFuel 3 msgsDiamond 1 0 [] =
        pre ++
        (replyBlockHtml 0 diamondReplyA
          (replyNestedHtml msgsDiamond
            (fun nid => generateDialogTreeFuel 2 msgsDiamond nid 2 [1]) diamondReplyA) ++ post) :=
  dialogTreeRender_visited_copied_per_branch.1 2 msgsDiamond 1 0 []
    ⟨1, "a", none, none, none, none, [diamondReplyA, diamondReplyB]⟩ diamondReplyA
    (by decide) (by decide) (by decide)

set_option maxRecDepth 1000000 in
/-- C7: the stored depth attribute steps by 1 from a message to its replies
and by a further 1 into a reply's continuation message (one full turn is +2,
entries start at 0), the visual indentation class equals the stored depth
capped at the constant 15, and past the cap the stored `data-depth` and the
depth badge keep growing while the visual class stays at 15. -/
theorem dialogTreeRender_depth_attributes :
    (∀ level : Nat, min level maxLevel = if level ≤ 15 then level else 15) ∧
    containsSub chainRenderHtml "depth-0\" data-message-id=\"1\" data-depth=\"0\"" = true ∧
    containsSub chainRenderHtml "depth-1\" data-reply-id=\"101\" data-depth=\"1\"" = true ∧
    containsSub chainRenderHtml "depth-2\" data-message-id=\"2\" data-depth=\"2\"" = true ∧
    containsSub deepRenderHtml "depth-14\" data-message-id=\"8\" data-depth=\"14\"" = true ∧
    containsSub deepRenderHtml "depth-15\" data-reply-id=\"108\" data-depth=\"15\"" = true ∧
    containsSub deepRenderHtml "depth-15\" data-message-id=\"9\" data-depth=\"16\"" = true ∧
    containsSub deepRenderHtml "<span class=\"depth-badge\">Depth: 16</span>" = true ∧
    (∀ (f : Nat) (msgs : List NPCMessage) (reply : NPCReply) (level : Nat)
        (visited : List Nat) (nid : Nat),
        reply.leads_to_message_id = some nid →
        nid ≠ 0 →
        (msgs.find? (fun m2 => m2.message_id == nid)).isSome = true →
        replyNestedHtml msgs
            (fun i => generateDialogTreeFuel f msgs i (level + 2) visited) reply =
          "<div class=\"nested-messages\">" ++
            generateDialogTreeFuel f msgs nid (level + 2) visited ++ "</div>") := by
  refine ⟨?_, by decide, by decide, by decide, by decide, by decide, by decide, by decide, ?_⟩
  · intro level
    simp [maxLevel, Nat.min_def]
  · intro f msgs reply level visited nid hl hnz hex
    unfold replyNestedHtml
    rw [hl]
    have hguard : (nid != 0 && (msgs.find? (fun m2 => m2.message_id == nid)).isSome) = true := by
      rw [hex, Bool.and_true]
      exact bne_iff_ne.mpr hnz
    show
      (if (nid != 0 && (msgs.find? (fun m2 => m2.message_id == nid)).isSome) = true then
        "<div class=\"nested-messages\">" ++
          generateDialogTreeFuel f msgs nid (level + 2) visited ++ "</div>"
      else "") = _
    rw [if_pos hguard]

set_option maxRecDepth 1000000 in
/-- Witness for C7 at concrete inputs: the deep reply's continuation renders
at two levels below its parent message. -/
theorem dialogTreeRender_depth_attributes_witness :
    replyNestedHtml msgsDeep (fun i => generateDialogTreeFuel 2 msgsDeep i (14 + 2) [8]) deepReply =
      "<div class=\"nested-messages\">" ++
        generateDialogTreeFuel 2 msgsDeep 9 (14 + 2) [8] ++ "</div>" :=
  dialogTreeRender_depth_attributes.2.2.2.2.2.2.2.2 2 msgsDeep deepReply 14 [8] 9
    rfl (by decide) (by decide)

/-- C4 (counterexample): with `exactMatch=true` and `useWildcards=true` the
term `"cat*"` does NOT match the text `"category"` — the exact-match branch
takes precedence over the wildcard branch in `searchInText`/`highlightText`,
and the escaped literal `cat\*` with word boundaries finds no occurrence —
contradicting the claim that the starred term matches in both exact-match
settings. -/
theorem searchContract_wildcard_under_exactMatch_counterexample :
    searchRowMatches "category" "cat*" true true = false := by decide

/-- C4 (amended): for candidate text `"category"`: term `"cat"` does not
match with `exactMatch=true` and matches with `exactMatch=false`; with
`useWildcards=true`, term `"cat*"` matches when `exactMatch=false`, but when
`exactMatch=true` the exact-match branch takes precedence and the starred
term does not match. -/
theorem searchContract_category_cat_cases :
    searchRowMatches "category" "cat" true false = false ∧
    searchRowMatches "category" "cat" false false = true ∧
    searchRowMatches "category" "cat*" false true = true ∧
    searchRowMatches "category" "cat*" true true = false := by decide

/-- C3 (counterexample): an NPC named `"Garde "` and a metadata record named
`"garde"` have equal French names after trimming and lowercasing, yet the
fixed `_match_metadata_with_npcs` (which groups by the verbatim name) does
not associate them: the NPC's gender and image collections stay empty. -/
theorem metadataMatcher_no_normalization_counterexample :
    trimChars (lowerChars npcGarde.name_fr.data) =
      trimChars (lowerChars metaGarde.name_fr.data) ∧
    (matchOneNpc [metaGarde] npcGarde).genders = [] ∧
    (matchOneNpc [metaGarde] npcGarde).img_urls = [] ∧
    matchMetadataWithNpcs [npcGarde] [metaGarde] = [npcGarde] := by decide

/-- C3 (amended): the fixed metadata matcher associates an NPC with exactly
the metadata records whose French name equals the NPC's verbatim (no
trimming, no lowercasing); the resulting gender and image-URL collections
are deduplicated (each value exactly once), and with zero verbatim matches
both collections stay empty. -/
theorem metadataMatcher_exact_name_dedup (md : List NPCMetadata) (npc : NPC)
    (hg : npc.genders = []) (hi : npc.img_urls = []) :
    (matchOneNpc md npc).genders.Nodup ∧
    (matchOneNpc md npc).img_urls.Nodup ∧
    (∀ g, g ∈ (matchOneNpc md npc).genders ↔
      ∃ meta, meta ∈ md ∧ meta.name_fr = npc.name_fr ∧ meta.gender = g) ∧
    (∀ u, u ∈ (matchOneNpc md npc).img_urls ↔
      ∃ meta, meta ∈ md ∧ meta.name_fr = npc.name_fr ∧ meta.img_url = u) := by
  simp only [matchOneNpc]
  by_cases hemp : (md.filter (fun meta => meta.name_fr == npc.name_fr)).isEmpty = true
  · rw [if_pos hemp]
    have hnil : md.filter (fun meta => meta.name_fr == npc.name_fr) = [] :=
      List.isEmpty_iff.mp hemp
    have hnomatch : ∀ meta, meta ∈ md → meta.name_fr ≠ npc.name_fr := by
      intro meta hmem hname
      have : meta ∈ md.filter (fun meta => meta.name_fr == npc.name_fr) :=
        List.mem_filter.mpr ⟨hmem, beq_iff_eq.mpr hname⟩
      rw [hnil] at this
      cases this
    refine ⟨hg ▸ List.nodup_nil, hi ▸ List.nodup_nil, ?_, ?_⟩
    · intro g
      rw [hg]
      constructor
      · intro hmem; cases hmem
      · rintro ⟨meta, hmem, hname, _⟩; exact absurd hname (hnomatch meta hmem)
    · intro u
      rw [hi]
      constructor
      · intro hmem; cases hmem
      · rintro ⟨meta, hmem, hname, _⟩; exact absurd hname (hnomatch meta hmem)
  · rw [if_neg hemp]
    refine ⟨List.nodup_dedup _, List.nodup_dedup _, ?_, ?_⟩
    · intro g
      rw [List.mem_dedup, List.mem_map]
      constructor
      · rintro ⟨meta, hmem, hgender⟩
        rcases List.mem_filter.mp hmem with ⟨hmd, hbeq⟩
        exact ⟨meta, hmd, beq_iff_eq.mp hbeq, hgender⟩
      · rintro ⟨meta, hmd, hname, hgender⟩
        exact ⟨meta, List.mem_filter.mpr ⟨hmd, beq_iff_eq.mpr hname⟩, hgender⟩
    · intro u
      rw [List.mem_dedup, List.mem_map]
      constructor
      · rintro ⟨meta, hmem, hurl⟩
        rcases List.mem_filter.mp hmem with ⟨hmd, hbeq⟩
        exact ⟨meta, hmd, beq_iff_eq.mp hbeq, hurl⟩
      · rintro ⟨meta, hmd, hname, hurl⟩
        exact ⟨meta, List.mem_filter.mpr ⟨hmd, beq_iff_eq.mpr hname⟩, hurl⟩

/-- Witness for C3 (amended) at concrete inputs: two metadata records with
the same verbatim name and different genders give the NPC both gender values
exactly once, and the shared image URL once. -/
theorem metadataMatcher_exact_name_dedup_witness :
    (matchOneNpc [metaGardeMale, metaGardeFemale] npcGardeExact).genders.Nodup ∧
    (matchOneNpc [metaGardeMale, metaGardeFemale] npcGardeExact).img_urls.Nodup ∧
    (∀ g, g ∈ (matchOneNpc [metaGardeMale, metaGardeFemale] npcGardeExact).genders ↔
      ∃ meta, meta ∈ [metaGardeMale, metaGardeFemale] ∧
        meta.name_fr = npcGardeExact.name_fr ∧ meta.gender = g) ∧
    (∀ u, u ∈ (matchOneNpc [metaGardeMale, metaGardeFemale] npcGardeExact).img_urls ↔
      ∃ meta, meta ∈ [metaGardeMale, metaGardeFemale] ∧
        meta.name_fr = npcGardeExact.name_fr ∧ meta.img_url = u) :=
  metadataMatcher_exact_name_dedup [metaGardeMale, metaGardeFemale] npcGardeExact rfl rfl

/-- C2 (counterexample): in the fixed variant, a missing NPC file does not
degrade to an empty collection — `_load_npcs` re-raises, so the loader
errors and the whole JSON-mode load fails, contradicting the claim that only
the Dialogs file is fatal. -/
theorem jsonLoadFixed_missing_npc_file_fatal_counterexample :
    loadNpcsFixed none = Except.error (LoadError.missingFile "export_npc_json.json") ∧
    loadDataJsonFixed none (some []) (some []) (some []) =
      Except.error (LoadError.missingFile "export_npc_json.json") :=
  ⟨rfl, rfl⟩

/-- C2 (amended): a missing Dialogs file is fatal in both variants; in the
legacy variant a missing NPC/Message/Reply file only warns and yields that
collection empty with the load as a whole succeeding, while in the fixed
variant a missing file for any of the four entity types aborts the whole
load. -/
theorem jsonLoaders_missing_file_behavior :
    loadDialogsFixed none = Except.error (LoadError.missingFile "export_npc_dialog_json.json") ∧
    loadMessagesFixed none = Except.error (LoadError.missingFile "export_npc_message_json.json") ∧
    loadRepliesFixed none = Except.error (LoadError.missingFile "export_npc_reply_json.json") ∧
    loadNpcsFixed none = Except.error (LoadError.missingFile "export_npc_json.json") ∧
    loadDialogsLegacy none = Except.error (LoadError.missingFile "export_npc_dialog_json.json") ∧
    loadNpcsLegacy none = Except.ok [] ∧
    loadMessagesLegacy none = Except.ok [] ∧
    loadRepliesLegacy none = Except.ok [] ∧
    loadDataJsonLegacy none none none (some []) =
      Except.ok { npcs := [], messages := [], replies := [], dialogs := [] } ∧
    loadDataJsonLegacy (some []) (some []) (some []) none =
      Except.error (LoadError.missingFile "export_npc_dialog_json.json") :=
  ⟨rfl, rfl, rfl, rfl, rfl, rfl, rfl, rfl, rfl, rfl⟩

/-- C8: rendering is a deterministic pure function of the loaded dataset —
two datasets that agree on NPCs, messages, replies, dialogs and metadata
produce byte-identical document text. -/
theorem renderIsPureFunctionOfDataset (d1 d2 : LoadedDataset)
    (h1 : d1.npcs = d2.npcs) (h2 : d1.messages = d2.messages)
    (h3 : d1.replies = d2.replies) (h4 : d1.dialogs = d2.dialogs)
    (h5 : d1.metadata = d2.metadata) :
    generateHtmlContent d1 = generateHtmlContent d2 := by
  cases d1
  cases d2
  dsimp only at h1 h2 h3 h4 h5
  subst h1
  subst h2
  subst h3
  subst h4
  subst h5
  rfl

/-- Witness for C8: the small example dataset renders to the same bytes as
itself under the purity theorem. -/
theorem renderIsPureFunctionOfDataset_witness :
    generateHtmlContent exampleDataset = generateHtmlContent exampleDataset :=
  renderIsPureFunctionOfDataset exampleDataset exampleDataset rfl rfl rfl rfl rfl

/-- C10: the document is the constant header, then the cards of
`npcRenderList` (the NPCs sorted ascending by lowercased French name, with
dialog-less NPCs filtered out), then the constant footer; the render list is
sorted and never contains an NPC whose dialog list is empty. -/
theorem npcCards_sorted_and_skip_dialogless (d : LoadedDataset) (npc : NPC)
    (h : npc.dialogs = []) :
    generateHtmlContent d =
      htmlDocPrefix ++
        String.join ((npcRenderList d.npcs).map (generateNpcCard d.messages)) ++
        htmlDocSuffix ∧
    List.Pairwise (fun a b => npcSortLe a b = true) (npcRenderList d.npcs) ∧
    npc ∉ npcRenderList d.npcs := by
  refine ⟨rfl, ?_, ?_⟩
  · have htrans : ∀ a b c : NPC, npcSortLe a b = true → npcSortLe b c = true →
        npcSortLe a c = true := by
      intro a b c hab hbc
      simp only [npcSortLe, decide_eq_true_eq] at hab hbc ⊢
      exact le_trans hab hbc
    have htotal : ∀ a b : NPC, (npcSortLe a b || npcSortLe b a) = true := by
      intro a b
      simp only [npcSortLe, Bool.or_eq_true, decide_eq_true_eq]
      exact le_total _ _
    exact List.Pairwise.sublist (List.filter_sublist _)
      (List.sorted_mergeSort htrans htotal d.npcs)
  · intro hmem
    have hkeep := (List.mem_filter.mp hmem).2
    rw [h] at hkeep
    exact absurd hkeep (by decide)

/-- Witness for C10 at the example dataset: the render list is sorted and
the dialog-less NPC contributes no card. -/
theorem npcCards_sorted_and_skip_dialogless_witness :
    (generateHtmlContent exampleDataset =
      htmlDocPrefix ++
        String.join ((npcRenderList exampleDataset.npcs).map
          (generateNpcCard exampleDataset.messages)) ++
        htmlDocSuffix) ∧
    List.Pairwise (fun a b => npcSortLe a b = true) (npcRenderList exampleDataset.npcs) ∧
    npcNoDialogs ∉ npcRenderList exampleDataset.npcs :=
  npcCards_sorted_and_skip_dialogless exampleDataset npcNoDialogs rfl

/-- C9: in XLIFF mode of the fixed variant, a reply with a translation entry
but no structural record is still created, with `parent_message_id`
defaulted to 0 and `leads_to_message_id` defaulted to `None`; the
relationship builder then attaches it to a message exactly when that message
has id 0 — under any other message it never appears. -/
theorem xliffOrphanReply_defaults_and_attachment
    (st : TransState) (rels : RelMap) (rid : Nat) (e : TransEntry)
    (he : lookupT st.replies rid = some e)
    (hrel : lookupRel rels rid = none) :
    ∃ r, r ∈ mergeXliffReplies st.replies rels ∧ r.reply_id = rid ∧
      r.parent_message_id = 0 ∧ r.leads_to_message_id = none ∧
      (∀ m, m ∈ linkRepliesToMessages (mergeXliffMessages st.messages)
          (mergeXliffReplies st.replies rels) →
        ((r ∈ m.replies → m.message_id = 0) ∧ (m.message_id = 0 → r ∈ m.replies))) := by
  obtain ⟨p, hfind, hsnd⟩ := Option.map_eq_some'.mp he
  have hkey : p.1 = rid := by
    have := List.find?_some hfind
    simpa using this
  have hpmem : p ∈ st.replies := List.mem_of_find?_eq_some hfind
  have hrel' : lookupRel rels p.1 = none := by rw [hkey]; exact hrel
  refine ⟨mergeOneReply rels p, List.mem_map_of_mem _ hpmem, ?_, ?_, ?_, ?_⟩
  · simp [mergeOneReply, hkey]
  · simp [mergeOneReply, hrel']
  · simp [mergeOneReply, hrel']
  · intro m hm
    obtain ⟨m0, hm0, rfl⟩ := List.mem_map.mp hm
    obtain ⟨q, _, rfl⟩ := List.mem_map.mp hm0
    have hpar : (mergeOneReply rels p).parent_message_id = 0 := by
      simp [mergeOneReply, hrel']
    constructor
    · intro hr
      have hr2 : mergeOneReply rels p ∈ mergeXliffReplies st.replies rels ∧
          (mergeOneReply rels p).parent_message_id = q.1 := by simpa using hr
      exact hr2.2.symm.trans hpar
    · intro hid
      show mergeOneReply rels p ∈
        [] ++ List.filter (fun r => r.parent_message_id == q.1) (mergeXliffReplies st.replies rels)
      rw [List.nil_append]
      refine List.mem_filter.mpr ⟨List.mem_map_of_mem _ hpmem, ?_⟩
      rw [hpar]
      exact beq_iff_eq.mpr hid.symm

/-- Witness for C9 at concrete inputs: reply 5 of the orphan state has the
defaulted links and attaches exactly at the message with id 0. -/
theorem xliffOrphanReply_defaults_and_attachment_witness :
    ∃ r, r ∈ mergeXliffReplies orphanState.replies [] ∧ r.reply_id = 5 ∧
      r.parent_message_id = 0 ∧ r.leads_to_message_id = none ∧
      (∀ m, m ∈ linkRepliesToMessages (mergeXliffMessages orphanState.messages)
          (mergeXliffReplies orphanState.replies []) →
        ((r ∈ m.replies → m.message_id = 0) ∧ (m.message_id = 0 → r ∈ m.replies))) :=
  xliffOrphanReply_defaults_and_attachment orphanState [] 5 orphanEntry rfl rfl

/-- Writing a target language never changes the French value. -/
theorem setLang_fr (L : TargetLang) (t : String) (e : TransEntry) :
    (setLang L t e).fr = e.fr := by
  cases L <;> rfl

/-- Writing one target language never changes another language's value. -/
theorem getLang_setLang_ne (L L2 : TargetLang) (t : String) (e : TransEntry)
    (h : L2 ≠ L) : getLang L2 (setLang L t e) = getLang L2 e := by
  cases L <;> cases L2 <;> first | rfl | exact absurd rfl h

/-- A freshly created record has no target-language values. -/
theorem getLang_fresh (L : TargetLang) (s : String) :
    getLang L { fr := s, en := none, es := none, pt := none } = none := by
  cases L <;> rfl

/-- `find?` over an append searches the left part first. -/
theorem find?_append_eq {α : Type} (p : α → Bool) (l1 l2 : List α) :
    (l1 ++ l2).find? p = ((l1.find? p).orElse (fun _ => l2.find? p)) := by
  induction l1 with
  | nil => rfl
  | cons a rest ih =>
    rw [List.cons_append, List.find?_cons, List.find?_cons]
    cases hp : p a
    · simpa using ih
    · rfl

/-- `find?` by key over `modifyT` is `find?` over the original map, with the
modification applied to the found entry (keys are preserved). -/
theorem modifyT_find? (m : TransMap) (k k2 : Nat) (f : TransEntry → TransEntry) :
    (modifyT m k f).find? (fun q => q.1 == k2) =
      (m.find? (fun q => q.1 == k2)).map
        (fun q => if (q.1 == k) = true then (q.1, f q.2) else q) := by
  unfold modifyT
  rw [List.find?_map]
  have hpred : ((fun q => q.1 == k2) ∘ fun p => if (p.1 == k) = true then (p.1, f p.2) else p) =
      (fun q : Nat × TransEntry => q.1 == k2) := by
    funext q
    show ((if (q.1 == k) = true then (q.1, f q.2) else q).1 == k2) = (q.1 == k2)
    by_cases hq : (q.1 == k) = true
    · rw [if_pos hq]
    · rw [if_neg hq]
  rw [hpred]

/-- Updating an existing key's record is seen by its own lookup. -/
theorem lookupT_modifyT_self (m : TransMap) (k : Nat) (f : TransEntry → TransEntry) :
    lookupT (modifyT m k f) k = (lookupT m k).map f := by
  unfold lookupT
  rw [modifyT_find?]
  cases hq : m.find? (fun q => q.1 == k) with
  | none => rfl
  | some q =>
    have hpq := List.find?_some hq
    show some ((if (q.1 == k) = true then (q.1, f q.2) else q).2) = some (f q.2)
    rw [if_pos hpq]

/-- Updating one key's record is invisible to other keys' lookups. -/
theorem lookupT_modifyT_other (m : TransMap) (k k2 : Nat) (f : TransEntry → TransEntry)
    (h : k2 ≠ k) : lookupT (modifyT m k f) k2 = lookupT m k2 := by
  unfold lookupT
  rw [modifyT_find?]
  cases hq : m.find? (fun q => q.1 == k2) with
  | none => rfl
  | some q =>
    have hpq := List.find?_some hq
    have hqk : (q.1 == k) = false :=
      beq_eq_false_iff_ne.mpr (by rw [beq_iff_eq.mp hpq]; exact h)
    show some ((if (q.1 == k) = true then (q.1, f q.2) else q).2) = some q.2
    rw [if_neg (by rw [hqk]; decide)]

/-- Ensuring a key makes its lookup the stored-or-fresh record. -/
theorem lookupT_ensure_self (m : TransMap) (k : Nat) (src : String) :
    lookupT (ensureEntry m k src) k =
      some ((lookupT m k).getD
        { fr := cleanSourceText src, en := none, es := none, pt := none }) := by
  unfold ensureEntry
  cases hs : lookupT m k with
  | some e =>
    rw [if_pos (by rfl)]
    rw [hs]
    rfl
  | none =>
    rw [if_neg (by simp)]
    have hfind : m.find? (fun p => p.1 == k) = none := by
      cases hf : m.find? (fun p => p.1 == k) with
      | none => rfl
      | some p =>
        rw [lookupT, hf] at hs
        exact absurd hs (by simp)
    rw [lookupT, find?_append_eq, hfind]
    simp [List.find?_cons]

/-- Ensuring one key is invisible to other keys' lookups. -/
theorem lookupT_ensure_other (m : TransMap) (k k2 : Nat) (src : String)
    (h : k2 ≠ k) : lookupT (ensureEntry m k src) k2 = lookupT m k2 := by
  unfold ensureEntry
  by_cases hs : (lookupT m k).isSome = true
  · rw [if_pos hs]
  · rw [if_neg hs]
    show lookupT (m ++ [(k, _)]) k2 = lookupT m k2
    unfold lookupT
    rw [find?_append_eq]
    cases hf : m.find? (fun p => p.1 == k2) with
    | some p => rfl
    | none =>
      have hne : (k == k2) = false := beq_eq_false_iff_ne.mpr (fun hc => h hc.symm)
      simp [List.find?_cons, hne]

/-- How one `trans-unit` affects the message-translation lookup of a key. -/
theorem applyUnit_messages_lookup (L : TargetLang) (st : TransState) (u : XliffUnit) (k : Nat) :
    lookupT (applyUnit L st u).messages k =
      if parseUnitId u.unitId = some (k, EntryType.message) then
        some (setLang L u.target
          ((lookupT st.messages k).getD
            { fr := cleanSourceText u.source, en := none, es := none, pt := none }))
      else lookupT st.messages k := by
  unfold applyUnit
  rcases hp : parseUnitId u.unitId with _ | ke
  · rw [if_neg (by simp)]
  · obtain ⟨k2, et⟩ := ke
    rcases et with _ | _ | _
    · rw [if_neg (by simp)]
    · by_cases hk : k2 = k
      · subst hk
        rw [if_pos rfl]
        show lookupT (modifyT (ensureEntry st.messages k2 u.source) k2 (setLang L u.target)) k2 = _
        rw [lookupT_modifyT_self, lookupT_ensure_self]
        rfl
      · rw [if_neg (by simp [hk])]
        show lookupT (modifyT (ensureEntry st.messages k2 u.source) k2 (setLang L u.target)) k = _
        rw [lookupT_modifyT_other _ _ _ _ (fun hc => hk hc.symm),
          lookupT_ensure_other _ _ _ _ (fun hc => hk hc.symm)]
    · rw [if_neg (by simp)]

/-- Effect of one unit on the lookup of the NPC-name dict: unchanged unless
the unit parses to `(k, name)`, in which case the new entry is the previous
one (or a fresh one built from the cleaned source) with the file's target
language set. -/
theorem applyUnit_names_lookup (L : TargetLang) (st : TransState) (u : XliffUnit) (k : Nat) :
    lookupT (applyUnit L st u).npcNames k =
      if parseUnitId u.unitId = some (k, EntryType.name) then
        some (setLang L u.target
          ((lookupT st.npcNames k).getD
            { fr := cleanSourceText u.source, en := none, es := none, pt := none }))
      else lookupT st.npcNames k := by
  unfold applyUnit
  rcases hp : parseUnitId u.unitId with _ | ke
  · rw [if_neg (by simp)]
  · obtain ⟨k2, et⟩ := ke
    rcases et with _ | _ | _
    · by_cases hk : k2 = k
      · subst hk
        rw [if_pos rfl]
        show lookupT (modifyT (ensureEntry st.npcNames k2 u.source) k2 (setLang L u.target)) k2 = _
        rw [lookupT_modifyT_self, lookupT_ensure_self]
        rfl
      · rw [if_neg (by simp [hk])]
        show lookupT (modifyT (ensureEntry st.npcNames k2 u.source) k2 (setLang L u.target)) k = _
        rw [lookupT_modifyT_other _ _ _ _ (fun hc => hk hc.symm),
          lookupT_ensure_other _ _ _ _ (fun hc => hk hc.symm)]
    · rw [if_neg (by simp)]
    · rw [if_neg (by simp)]

/-- Effect of one unit on the lookup of the replies dict: unchanged unless
the unit parses to `(k, reply)`, in which case the new entry is the previous
one (or a fresh one built from the cleaned source) with the file's target
language set. -/
theorem applyUnit_replies_lookup (L : TargetLang) (st : TransState) (u : XliffUnit) (k : Nat) :
    lookupT (applyUnit L st u).replies k =
      if parseUnitId u.unitId = some (k, EntryType.reply) then
        some (setLang L u.target
          ((lookupT st.replies k).getD
            { fr := cleanSourceText u.source, en := none, es := none, pt := none }))
      else lookupT st.replies k := by
  unfold applyUnit
  rcases hp : parseUnitId u.unitId with _ | ke
  · rw [if_neg (by simp)]
  · obtain ⟨k2, et⟩ := ke
    rcases et with _ | _ | _
    · rw [if_neg (by simp)]
    · rw [if_neg (by simp)]
    · by_cases hk : k2 = k
      · subst hk
        rw [if_pos rfl]
        show lookupT (modifyT (ensureEntry st.replies k2 u.source) k2 (setLang L u.target)) k2 = _
        rw [lookupT_modifyT_self, lookupT_ensure_self]
        rfl
      · rw [if_neg (by simp [hk])]
        show lookupT (modifyT (ensureEntry st.replies k2 u.source) k2 (setLang L u.target)) k = _
        rw [lookupT_modifyT_other _ _ _ _ (fun hc => hk hc.symm),
          lookupT_ensure_other _ _ _ _ (fun hc => hk hc.symm)]

/-- Effect of one unit on the lookup of the dict of any entry type:
unchanged unless the unit parses to `(k, ty)`, in which case the new entry
is the previous one (or a fresh one built from the cleaned source) with the
file's target language set. -/
theorem applyUnit_stateMap_lookup (ty : EntryType) (L : TargetLang) (st : TransState)
    (u : XliffUnit) (k : Nat) :
    lookupT (stateMap ty (applyUnit L st u)) k =
      if parseUnitId u.unitId = some (k, ty) then
        some (setLang L u.target
          ((lookupT (stateMap ty st) k).getD
            { fr := cleanSourceText u.source, en := none, es := none, pt := none }))
      else lookupT (stateMap ty st) k := by
  cases ty with
  | name => exact applyUnit_names_lookup L st u k
  | message => exact applyUnit_messages_lookup L st u k
  | reply => exact applyUnit_replies_lookup L st u k

/-- Loading the XLIFF files is the left fold of `applyUnit` over the
language-tagged unit sequence. -/
theorem loadXliff_eq_foldl_tagged (files : List XliffFile) :
    loadXliffTranslations files =
      (taggedUnits files).foldl (fun st p => applyUnit p.1 st p.2) initTransState := by
  suffices h : ∀ (fs : List XliffFile) (st : TransState),
      fs.foldl (fun st f => f.units.foldl (applyUnit f.targetLang) st) st =
        (taggedUnits fs).foldl (fun st p => applyUnit p.1 st p.2) st from
    h files initTransState
  intro fs
  induction fs with
  | nil => intro st; rfl
  | cons f rest ih =>
    intro st
    have htag : taggedUnits (f :: rest) =
        f.units.map (fun u => (f.targetLang, u)) ++ taggedUnits rest := by
      simp [taggedUnits]
    rw [List.foldl_cons, htag, List.foldl_append, List.foldl_map, ih]

/-- Across the tagged unit sequence, a key's French value in the dict of
any entry type is either already present in the starting state or the
cleaned source of the first unit of that type for that key. -/
theorem xliffFr_foldl (ty : EntryType) (l : List (TargetLang × XliffUnit)) :
    ∀ (st : TransState) (k : Nat) (e : TransEntry),
      lookupT (stateMap ty (l.foldl (fun st p => applyUnit p.1 st p.2) st)) k = some e →
      (∃ e0, lookupT (stateMap ty st) k = some e0 ∧ e0.fr = e.fr) ∨
      (lookupT (stateMap ty st) k = none ∧
        ∃ src, firstSourceFor ty l k = some src ∧ e.fr = cleanSourceText src) := by
  induction l with
  | nil => intro st k e h; exact Or.inl ⟨e, h, rfl⟩
  | cons p rest ih =>
    intro st k e h
    rw [List.foldl_cons] at h
    rcases ih (applyUnit p.1 st p.2) k e h with ⟨e0, he0, hfr⟩ | ⟨hnone, src, hsrc, hfr⟩
    · rw [applyUnit_stateMap_lookup] at he0
      by_cases hp : parseUnitId p.2.unitId = some (k, ty)
      · rw [if_pos hp] at he0
        have he0' : e0 = setLang p.1 p.2.target
            ((lookupT (stateMap ty st) k).getD
              { fr := cleanSourceText p.2.source, en := none, es := none, pt := none }) :=
          (Option.some.inj he0).symm
        cases hst : lookupT (stateMap ty st) k with
        | none =>
          right
          refine ⟨rfl, p.2.source, ?_, ?_⟩
          · unfold firstSourceFor
            rw [List.find?_cons]
            have hb : (parseUnitId p.2.unitId == some (k, ty)) = true :=
              beq_iff_eq.mpr hp
            rw [hb]
            rfl
          · rw [← hfr, he0', hst, setLang_fr]
            rfl
        | some e1 =>
          left
          refine ⟨e1, rfl, ?_⟩
          rw [← hfr, he0', hst, setLang_fr]
          rfl
      · rw [if_neg hp] at he0
        exact Or.inl ⟨e0, he0, hfr⟩
    · rw [applyUnit_stateMap_lookup] at hnone
      by_cases hp : parseUnitId p.2.unitId = some (k, ty)
      · rw [if_pos hp] at hnone; cases hnone
      · rw [if_neg hp] at hnone
        right
        refine ⟨hnone, src, ?_, hfr⟩
        unfold firstSourceFor at hsrc ⊢
        rw [List.find?_cons]
        have hb : (parseUnitId p.2.unitId == some (k, ty)) = false :=
          beq_eq_false_iff_ne.mpr hp
        rw [hb]
        exact hsrc

/-- C5: in XLIFF mode, for every `(entityId, entryType)` pair seen across
the translation files — entryType ranging over NPC name, message and reply —
the merged record's French value is the cleaned source text of the first
file (in processing order) carrying that pair; each file writes only its
own target-language key (all other language values of every dict are
untouched); and the two-file example — `npc.42.message` with source
"Bonjour"/target "Hello" in the English file and source "Bonjour"/target
"Hola" in the Spanish file — merges to message 42 with `text_fr="Bonjour"`,
`text_en="Hello"`, `text_es="Hola"`, `text_pt=None`. -/
theorem xliffMerge_french_first_seen :
    (∀ (ty : EntryType) (files : List XliffFile) (k : Nat) (e : TransEntry),
        lookupT (stateMap ty (loadXliffTranslations files)) k = some e →
        ∃ src, firstSourceFor ty (taggedUnits files) k = some src ∧
          e.fr = cleanSourceText src) ∧
    (∀ (L L2 : TargetLang) (t : String) (e : TransEntry), L2 ≠ L →
        getLang L2 (setLang L t e) = getLang L2 e) ∧
    (∀ (ty : EntryType) (L : TargetLang) (st : TransState) (u : XliffUnit) (k : Nat)
        (L2 : TargetLang), L2 ≠ L →
        ((lookupT (stateMap ty (applyUnit L st u)) k).bind (getLang L2)) =
          ((lookupT (stateMap ty st) k).bind (getLang L2))) ∧
    mergeXliffMessages (loadXliffTranslations xliffExampleFiles).messages =
      [{ message_id := 42, text_fr := "Bonjour", text_en := some "Hello",
         text_es := some "Hola", text_pt := none, context := none, replies := [] }] := by
  refine ⟨?_, fun L L2 t e h => getLang_setLang_ne L L2 t e h, ?_, by decide⟩
  · intro ty files k e h
    rw [loadXliff_eq_foldl_tagged] at h
    rcases xliffFr_foldl ty (taggedUnits files) initTransState k e h with
      ⟨e0, he0, _⟩ | ⟨_, src, hs, hf⟩
    · exact absurd he0 (by cases ty <;> simp [stateMap, initTransState, lookupT])
    · exact ⟨src, hs, hf⟩
  · intro ty L st u k L2 hne
    rw [applyUnit_stateMap_lookup]
    by_cases hp : parseUnitId u.unitId = some (k, ty)
    · rw [if_pos hp]
      show getLang L2 (setLang L u.target
        ((lookupT (stateMap ty st) k).getD
          { fr := cleanSourceText u.source, en := none, es := none, pt := none })) = _
      rw [getLang_setLang_ne _ _ _ _ hne]
      cases hst : lookupT (stateMap ty st) k with
      | some e1 => rfl
      | none => exact getLang_fresh L2 _
    · rw [if_neg hp]

/-- Witness for C5 at the two-file example: the merged French value of
message 42 is the cleaned first-seen source. -/
theorem xliffMerge_french_first_seen_witness :
    ∃ src, firstSourceFor EntryType.message (taggedUnits xliffExampleFiles) 42 = some src ∧
      TransEntry.fr { fr := "Bonjour", en := some "Hello", es := some "Hola", pt := none } =
        cleanSourceText src :=
  xliffMerge_french_first_seen.1 EntryType.message xliffExampleFiles 42
    { fr := "Bonjour", en := some "Hello", es := some "Hola", pt := none } (by decide)
